import Mathlib

/-!
Shallow embedding of the sentiment-aggregation core of the
Gemini-Pro3-App-Demo repository.

Embedded modules:
  * src/server/analyzer.ts   — keyword fallback classifier and the two
    LLM-backed classifiers (lightweight and deep);
  * src/server/index.ts      — the GET /api/ptt-sentiment aggregation
    (push-count normalization, category filter, candidate cap,
    pagination, post assembly);
  * src/services/geminiService.ts — analyzePodcast and
    fetchRecentEpisodes (episode-number and date derivation, mock
    fallback).

External effects (the LLM call, HTTP fetches, cheerio extraction,
JSON.parse, Date parsing) are modelled as explicit parameters: each
function takes the outcome of the effect as an argument, so the
embedded functions are pure and executable.  JavaScript machine
integers do not overflow in any embedded computation (push counts,
indices), so Nat/Int are used directly.
-/

/-! ## Basic string helpers (models of JS string primitives) -/

/-- Model of checking that one character list is a prefix of another. -/
def isPrefixOfChars : List Char → List Char → Bool
  | [], _ => true
  | _ :: _, [] => false
  | a :: as, b :: bs => a = b && isPrefixOfChars as bs

/-- Model of substring containment on character lists
(JS String.prototype.includes). -/
def isSubListOfChars (needle : List Char) : List Char → Bool
  | [] => needle.isEmpty
  | c :: cs => isPrefixOfChars needle (c :: cs) || isSubListOfChars needle cs

/-- JS hay.includes(needle). -/
def strIncludes (hay needle : String) : Bool :=
  isSubListOfChars needle.toList hay.toList

/-- Numeric value of a decimal digit character. -/
def digitToNat (c : Char) : Nat := c.toNat - 48

/-- Value of a list of decimal digit characters read left to right. -/
def natOfDigits (ds : List Char) : Nat :=
  ds.foldl (fun n c => n * 10 + digitToNat c) 0

/-- Model of JS toLowerCase via per-character lowering (the two agree
on the ASCII and CJK text this program handles). -/
def jsToLowerCase (s : String) : String :=
  String.mk (s.toList.map Char.toLower)

/-- Whitespace characters skipped by JS parseInt. -/
def isJsSpace (c : Char) : Bool :=
  c = ' ' || c = '\t' || c = '\n' || c = '\r'

/-- Model of JS parseInt(s, 10): skip leading whitespace, read an
optional sign and a maximal run of decimal digits; none models NaN
(no digits found). -/
def jsParseInt (s : String) : Option Int :=
  match s.toList.dropWhile isJsSpace with
  | [] => none
  | c :: rest =>
      if c = '-' then
        let ds := rest.takeWhile Char.isDigit
        if ds.isEmpty then none else some (-(natOfDigits ds : Int))
      else if c = '+' then
        let ds := rest.takeWhile Char.isDigit
        if ds.isEmpty then none else some ((natOfDigits ds : Int))
      else
        let ds := (c :: rest).takeWhile Char.isDigit
        if ds.isEmpty then none else some ((natOfDigits ds : Int))

/-! ## src/server/analyzer.ts — data model -/

/-- Sentiment labels of analyzer.ts (type Sentiment). -/
inductive Sentiment where
  | Bullish
  | Bearish
  | Neutral
deriving DecidableEq, Repr

/-- Result of the lightweight classifier (interface SentimentResult). -/
structure SentimentResult where
  sentiment : Sentiment
  reason : String
deriving DecidableEq, Repr

/-- One extracted opinion of the deep classifier (interface Opinion). -/
structure Opinion where
  type : Sentiment
  content : String
deriving DecidableEq, Repr

/-- Result of the deep classifier (interface ArticleAnalysisResult). -/
structure ArticleAnalysisResult where
  sentiment : Sentiment
  reason : String
  opinions : List Opinion
deriving DecidableEq, Repr

/-! ## src/server/analyzer.ts — keyword fallback classifier -/

/-- Fixed bullish keyword set of analyzeSentimentKeyword. -/
def BULLISH_KEYWORDS : List String := ["多", "做多", "看多", "買進", "飛", "噴"]

/-- Fixed bearish keyword set of analyzeSentimentKeyword. -/
def BEARISH_KEYWORDS : List String := ["空", "做空", "看空", "賣出", "崩", "逃"]

/-- Number of keywords of the given set contained in the text, exactly
as the forEach/includes loop of analyzeSentimentKeyword counts them
(each keyword contributes at most 1, regardless of how many times it
occurs). -/
def keywordCount (keywords : List String) (normalizedText : String) : Nat :=
  keywords.foldl (fun n k => if strIncludes normalizedText k then n + 1 else n) 0

/-- Embedding of analyzeSentimentKeyword (analyzer.ts lines 180-194). -/
def analyzeSentimentKeyword (text : String) : SentimentResult :=
  let normalizedText := jsToLowerCase text
  let bullishCount := keywordCount BULLISH_KEYWORDS normalizedText
  let bearishCount := keywordCount BEARISH_KEYWORDS normalizedText
  if bullishCount > bearishCount then
    ⟨.Bullish, "關鍵字判定：多方詞彙較多"⟩
  else if bearishCount > bullishCount then
    ⟨.Bearish, "關鍵字判定：空方詞彙較多"⟩
  else
    ⟨.Neutral, "關鍵字判定：中立或無明顯關鍵字"⟩

/-! ## LLM capability model -/

/-- Outcome of one call to the external LLM capability, as seen by the
code after the await and after JSON.parse: either the call threw, or it
returned a text (response.text, "" when absent) together with the
result of JSON.parse on that text (none when parsing threw or produced
nothing usable). -/
inductive LLMOutcome (α : Type) where
  | thrown (msg : String)
  | response (text : String) (parsed : Option α)
deriving DecidableEq, Repr

/-- Embedding of analyzeSentimentWithLLM (analyzer.ts lines 30-93).
hasClient models client being non-null (GEMINI_API_KEY present); the
LLM call outcome is passed in.  The code only attempts JSON.parse when
the response text is non-empty, and returns the parsed result when it
is usable, the fixed neutral object otherwise. -/
def analyzeSentimentWithLLM (hasClient : Bool) (title content : String)
    (llm : LLMOutcome SentimentResult) : SentimentResult :=
  if !hasClient then
    analyzeSentimentKeyword (title ++ " " ++ content)
  else
    match llm with
    | .thrown _ => analyzeSentimentKeyword title
    | .response text parsed =>
        let result := if text ≠ "" then parsed else none
        result.getD ⟨.Neutral, "無法解析 AI 回應"⟩

/-- Embedding of analyzeArticleWithLLM (analyzer.ts lines 95-176). -/
def analyzeArticleWithLLM (hasClient : Bool) (_title _content : String)
    (llm : LLMOutcome ArticleAnalysisResult) : ArticleAnalysisResult :=
  if !hasClient then
    ⟨.Neutral, "No API Key", []⟩
  else
    match llm with
    | .thrown _ => ⟨.Neutral, "Analysis Error", []⟩
    | .response text parsed =>
        let result := if text ≠ "" then parsed else none
        result.getD ⟨.Neutral, "無法解析 AI 回應", []⟩

/-! ## src/server/index.ts — GET /api/ptt-sentiment aggregation -/

/-- Category of a retained forum post. -/
inductive Category where
  | Target
  | Other
deriving DecidableEq, Repr

/-- Assembled record for one retained post (interface PTTPost). -/
structure ForumPost where
  title : String
  author : String
  date : String
  link : String
  pushCount : String
  stockId : Option String
  sentiment : Sentiment
  reason : String
  category : Category
deriving DecidableEq, Repr

/-- One .r-ent row of a listing page as cheerio exposes it to the
handler: deleted rows have no title link and are skipped. -/
structure ListingRow where
  deleted : Bool
  title : String
  href : String
  author : String
  date : String
  pushCountText : String
deriving DecidableEq, Repr

/-- One successfully fetched and parsed listing page: its rows and the
href of the btn-group-paging previous-page anchor, when present. -/
structure ListingPage where
  rows : List ListingRow
  prevHref : Option String
deriving DecidableEq, Repr

/-- Base URL prepended to scraped hrefs. -/
def pttBase : String := "https://www.ptt.cc"

/-- Start URL of the pagination loop. -/
def indexUrl : String := "https://www.ptt.cc/bbs/Stock/index.html"

/-- Embedding of the push-count normalization (index.ts lines 108-114):
the overflow token 爆 maps to 100, a non-empty text goes through
parseInt with NaN mapped to 0, and the empty text stays 0. -/
def normalizePushCount (pushCountText : String) : Int :=
  if pushCountText = "爆" then 100
  else if pushCountText ≠ "" then (jsParseInt pushCountText).getD 0
  else 0

/-- Embedding of the category assignment (index.ts lines 116-121). -/
def categorize (title : String) (pushCountVal : Int) : Option Category :=
  if strIncludes title "[標的]" then some .Target
  else if pushCountVal > 20 then some .Other
  else none

/-- Candidate kept from a listing row before detail analysis (the
object pushed onto pagePosts, index.ts lines 124-131). -/
structure Candidate where
  title : String
  link : String
  author : String
  date : String
  pushCountText : String
  category : Category
deriving DecidableEq, Repr

/-- Processing of one .r-ent row (index.ts lines 98-133): deleted rows
and rows matching no category produce nothing. -/
def rowCandidate (r : ListingRow) : Option Candidate :=
  if r.deleted then none
  else
    match categorize r.title (normalizePushCount r.pushCountText) with
    | some c =>
        some ⟨r.title, pttBase ++ r.href, r.author, r.date, r.pushCountText, c⟩
    | none => none

/-- JS regex word character (match of \w). -/
def isWordChar (c : Char) : Bool :=
  (('a' ≤ c && c ≤ 'z') || ('A' ≤ c && c ≤ 'Z') || c.isDigit || c = '_')

/-- Reads exactly four decimal digits at the head of the list, also
returning the character following them, when any. -/
def fourDigitsAt : List Char → Option (List Char × Option Char)
  | a :: b :: c :: d :: rest =>
      if a.isDigit && b.isDigit && c.isDigit && d.isDigit then
        some ([a, b, c, d], rest.head?)
      else none
  | _ => none

/-- Left-to-right scan of title.match applied to a four-digit run with
word boundaries on both sides; prev is the character before the current
position. -/
def stockIdScan (prev : Option Char) : List Char → Option String
  | [] => none
  | c :: cs =>
      let boundaryOk := match prev with
        | none => true
        | some p => !isWordChar p
      match (if boundaryOk then fourDigitsAt (c :: cs) else none) with
      | some (ds, next) =>
          if (match next with | none => true | some x => !isWordChar x) then
            some (String.mk ds)
          else stockIdScan (some c) cs
      | none => stockIdScan (some c) cs

/-- Embedding of the stock-id extraction (index.ts lines 168-169):
first standalone four-digit run of the title, none otherwise. -/
def extractStockId (title : String) : Option String :=
  stockIdScan none title.toList

/-- Environment of one aggregation run: the outcome of every external
effect the handler performs.  fetchPage returns none where fetchPTTPage
returned the empty-content sentinel (or the page, parsed); fetchDetail
returns the raw detail html by link, with "" as the failure sentinel;
extractContent models the cheerio body+pushes assembly on that html;
llm gives the LLM call outcome per (title, content) pair. -/
structure ScrapeEnv where
  fetchPage : String → Option ListingPage
  fetchDetail : String → String
  extractContent : String → String
  hasClient : Bool
  llm : String → String → LLMOutcome SentimentResult

/-- Embedding of the detail-fetch-and-classify step for one retained
candidate and of the assembly of its ForumPost (index.ts lines
139-181). -/
def analyzeCandidate (env : ScrapeEnv) (p : Candidate) : ForumPost :=
  let detailHtml := env.fetchDetail p.link
  let sentimentResult :=
    if detailHtml ≠ "" then
      let fullContent := env.extractContent detailHtml
      analyzeSentimentWithLLM env.hasClient p.title fullContent
        (env.llm p.title fullContent)
    else
      ⟨.Neutral, "無法讀取內容"⟩
  ⟨p.title, p.author, p.date, p.link, p.pushCountText,
   extractStockId p.title, sentimentResult.sentiment,
   sentimentResult.reason, p.category⟩

/-- Candidates of one listing page, in row order. -/
def pageCandidates (page : ListingPage) : List Candidate :=
  page.rows.filterMap rowCandidate

/-- Posts produced from one listing page: the candidate set is capped
to its first 5 entries (index.ts line 137) and each capped candidate is
analyzed and assembled. -/
def pagePosts (env : ScrapeEnv) (page : ListingPage) : List ForumPost :=
  ((pageCandidates page).take 5).map (analyzeCandidate env)

/-- Trace of one aggregation run: the collected posts, the URLs on
which a listing fetch was attempted, and the number of candidates
analyzed on each successfully fetched page. -/
structure AggResult where
  posts : List ForumPost
  visitedUrls : List String
  analyzedCounts : List Nat
deriving DecidableEq, Repr

/-- Embedding of the pagination loop (index.ts lines 90-191), with the
remaining iteration budget as fuel (the code runs it with 3): fetch the
current URL, stop on the empty sentinel, collect the page's capped
posts, and continue on the previous-page link when present. -/
def aggregateFrom (env : ScrapeEnv) : String → Nat → AggResult
  | _, 0 => ⟨[], [], []⟩
  | url, n + 1 =>
      match env.fetchPage url with
      | none => ⟨[], [url], []⟩
      | some page =>
          let here := pagePosts env page
          match page.prevHref with
          | some h =>
              let rest := aggregateFrom env (pttBase ++ h) n
              ⟨here ++ rest.posts, url :: rest.visitedUrls,
               here.length :: rest.analyzedCounts⟩
          | none => ⟨here, [url], [here.length]⟩

/-- Whole-run trace of GET /api/ptt-sentiment. -/
def pttSentimentRun (env : ScrapeEnv) : AggResult :=
  aggregateFrom env indexUrl 3

/-- Response envelope of the two API endpoints. -/
inductive ApiResponse where
  | success (data : List ForumPost)
  | failure (error : String)
deriving DecidableEq, Repr

/-- Embedding of the GET /api/ptt-sentiment handler response: the body
of the try block never throws in this model (every fallible effect is
already resolved in the environment), so the handler always reaches
res.json with the collected posts. -/
def pttSentimentHandler (env : ScrapeEnv) : ApiResponse :=
  .success (pttSentimentRun env).posts

/-! ## src/services/geminiService.ts — episode resolver -/

/-- Episode record of types.ts (interface Episode). -/
structure Episode where
  id : String
  episodeNumber : String
  title : String
  date : String
deriving DecidableEq, Repr

/-- Fields the resolver reads from one RSS item element; absent
elements read as "" (the || fallback on textContent). -/
structure RSSItem where
  title : String
  pubDate : String
  itunesEpisode : String
deriving DecidableEq, Repr

/-- Outcome of the steps of fetchRecentEpisodes that precede item
processing: the iTunes lookup failing or yielding no feedUrl, every
CORS proxy failing, the XML parser reporting an error, or a parsed
feed with its item list. -/
inductive FeedOutcome where
  | lookupFailed
  | fetchFailed
  | parseFailed
  | parsed (items : List RSSItem)
deriving DecidableEq, Repr

/-- Attempt of the pattern EP<digits> (case-insensitive) at the head of
the list, returning the maximal captured digit run. -/
def epDigitsAt : List Char → Option (List Char)
  | e :: p :: rest =>
      if (e = 'E' || e = 'e') && (p = 'P' || p = 'p') then
        let ds := rest.takeWhile Char.isDigit
        if ds.isEmpty then none else some ds
      else none
  | _ => none

/-- Left-to-right scan of title.match against EP<digits>, returning the
captured digits of the first match. -/
def epScan : List Char → Option (List Char)
  | [] => none
  | c :: cs =>
      match epDigitsAt (c :: cs) with
      | some ds => some ds
      | none => epScan cs

/-- Digits of the first EP<digits> match in a title, when any. -/
def firstEpDigits (title : String) : Option String :=
  (epScan title.toList).map String.mk

/-- Embedding of the episode-number derivation for the item at index i
of a feed with total items (geminiService.ts lines 257-268): title
match first, else the itunes episode field, else the reverse position
index. -/
def deriveEpisodeNumber (total i : Nat) (item : RSSItem) : String :=
  match firstEpDigits item.title with
  | some ds => "EP" ++ ds
  | none =>
      if item.itunesEpisode ≠ "" then "EP" ++ item.itunesEpisode
      else "EP" ++ toString (total - i)

/-- Embedding of the date computation (geminiService.ts lines 270-273).
toISODate models s => new Date(s).toISOString().split("T")[0]; it is
none exactly when that expression throws (invalid date), which the
code does not catch inside the loop.  An empty pubDate takes the
current date. -/
def deriveDate (toISODate : String → Option String) (today : String)
    (item : RSSItem) : Option String :=
  if item.pubDate ≠ "" then toISODate item.pubDate else some today

/-- Embedding of the item loop (geminiService.ts lines 250-281), run on
the first min(items.length, 10) items with index i counting from 0;
an unparsable non-empty pubDate throws out of the loop, which the
Except error models. -/
def buildEpisodes (toISODate : String → Option String) (today : String)
    (total : Nat) : Nat → List RSSItem → Except Unit (List Episode)
  | _, [] => .ok []
  | i, item :: rest =>
      match deriveDate toISODate today item with
      | none => .error ()
      | some date =>
          let num := deriveEpisodeNumber total i item
          match buildEpisodes toISODate today total (i + 1) rest with
          | .ok eps => .ok (⟨num, num, item.title, date⟩ :: eps)
          | .error e => .error e

/-- Fixed two-entry mock list of the catch branch (geminiService.ts
lines 289-292); its two dates are the current date and the date three
days earlier, passed in. -/
def mockEpisodes (today threeDaysAgo : String) : List Episode :=
  [⟨"EP531", "EP531", "EP531 - 最新集數 (Mock)", today⟩,
   ⟨"EP530", "EP530", "EP530 - 上一集 (Mock)", threeDaysAgo⟩]

/-- Embedding of fetchRecentEpisodes (geminiService.ts lines 184-294):
any failure before or during item processing lands in the catch branch
and returns the mock list; a successful run returns the episodes built
from the first up-to-10 items. -/
def fetchRecentEpisodes (outcome : FeedOutcome)
    (toISODate : String → Option String)
    (today threeDaysAgo : String) : List Episode :=
  match outcome with
  | .parsed items =>
      match buildEpisodes toISODate today items.length 0 (items.take 10) with
      | .ok eps => eps
      | .error _ => mockEpisodes today threeDaysAgo
  | _ => mockEpisodes today threeDaysAgo

/-! ## src/services/geminiService.ts — podcast analyzer -/

/-- Company sentiment record of types.ts (interface CompanySentiment);
the SentimentType enum has the same three labels as Sentiment. -/
structure CompanySentiment where
  name : String
  ticker : Option String
  sentiment : Sentiment
  reason : String
deriving DecidableEq, Repr

/-- Podcast analysis record of types.ts (interface PodcastAnalysis). -/
structure PodcastAnalysis where
  episodeTitle : String
  summaryPoints : List String
  companies : List CompanySentiment
deriving DecidableEq, Repr

/-- Return shape of analyzePodcast (interface AnalysisResponse). -/
structure AnalysisResponse where
  data : Option PodcastAnalysis
  sources : List (String × String)
deriving DecidableEq, Repr

/-- Message of the error getClient throws when process.env.API_KEY is
absent (geminiService.ts lines 6-12). -/
def apiKeyErrorMsg : String :=
  "API Key not found. Please set GEMINI_API_KEY in .env.local file."

/-- Embedding of analyzePodcast (geminiService.ts lines 56-176).
getClient runs before the try block, so a missing key propagates as an
error; a thrown LLM call is logged and rethrown; otherwise the parsed
data (none on empty or unparsable text, after the search-mode
code-fence cleanup that the parsed field already accounts for) and the
grounding sources are returned. -/
def analyzePodcast (hasKey : Bool)
    (llm : LLMOutcome PodcastAnalysis)
    (sources : List (String × String)) : Except String AnalysisResponse :=
  if !hasKey then .error apiKeyErrorMsg
  else
    match llm with
    | .thrown msg => .error msg
    | .response text parsed =>
        .ok ⟨if text ≠ "" then parsed else none, sources⟩

/-! ## Helper lemmas -/

/-- Environment with every external effect failing, used to instantiate
universally quantified theorems at concrete inputs. -/
def fixedEnv : ScrapeEnv :=
  ⟨fun _ => none, fun _ => "", fun s => s, true, fun _ _ => .thrown "err"⟩

theorem jsParseInt_getD_nonneg (s : String)
    (h : (s.toList.dropWhile isJsSpace).head? ≠ some '-') :
    0 ≤ (jsParseInt s).getD 0 := by
  cases hcs : s.toList.dropWhile isJsSpace with
  | nil =>
      simp only [jsParseInt, hcs]
      simp
  | cons c rest =>
      have hc : ¬ c = '-' := by
        intro hc
        exact h (by rw [hcs, hc]; rfl)
      simp only [jsParseInt, hcs]
      rw [if_neg hc]
      by_cases hp : c = '+'
      · rw [if_pos hp]
        split
        · simp
        · simp
      · rw [if_neg hp]
        split
        · simp
        · simp

theorem buildEpisodes_ok_length (toISODate : String → Option String)
    (today : String) (total : Nat) :
    ∀ (l : List RSSItem) (i : Nat) (eps : List Episode),
    buildEpisodes toISODate today total i l = .ok eps → eps.length = l.length := by
  intro l
  induction l with
  | nil =>
      intro i eps h
      simp only [buildEpisodes] at h
      cases h
      rfl
  | cons item rest ih =>
      intro i eps h
      unfold buildEpisodes at h
      cases hd : deriveDate toISODate today item with
      | none => rw [hd] at h; exact absurd h (by simp)
      | some date =>
          rw [hd] at h
          cases hb : buildEpisodes toISODate today total (i + 1) rest with
          | ok eps2 =>
              rw [hb] at h
              cases h
              simp [ih (i + 1) eps2 hb]
          | error e => rw [hb] at h; exact absurd h (by simp)

theorem buildEpisodes_ok_spec (toISODate : String → Option String)
    (today : String) (total : Nat) :
    ∀ (l : List RSSItem) (i : Nat) (eps : List Episode),
    buildEpisodes toISODate today total i l = .ok eps →
    eps = (List.enumFrom i l).map (fun pr =>
      ⟨deriveEpisodeNumber total pr.1 pr.2, deriveEpisodeNumber total pr.1 pr.2,
       pr.2.title, (deriveDate toISODate today pr.2).getD today⟩) := by
  intro l
  induction l with
  | nil =>
      intro i eps h
      simp only [buildEpisodes] at h
      cases h
      rfl
  | cons item rest ih =>
      intro i eps h
      unfold buildEpisodes at h
      cases hd : deriveDate toISODate today item with
      | none => rw [hd] at h; exact absurd h (by simp)
      | some date =>
          rw [hd] at h
          cases hb : buildEpisodes toISODate today total (i + 1) rest with
          | ok eps2 =>
              rw [hb] at h
              cases h
              rw [List.enumFrom_cons, List.map_cons, ih (i + 1) eps2 hb, hd]
              rfl
          | error e => rw [hb] at h; exact absurd h (by simp)

theorem pagePosts_length_le (env : ScrapeEnv) (page : ListingPage) :
    (pagePosts env page).length ≤ 5 := by
  unfold pagePosts
  rw [List.length_map, List.length_take]
  exact min_le_left _ _

theorem aggregateFrom_bounds (env : ScrapeEnv) :
    ∀ (n : Nat) (url : String),
    (aggregateFrom env url n).visitedUrls.length ≤ n
    ∧ ∀ c ∈ (aggregateFrom env url n).analyzedCounts, c ≤ 5 := by
  intro n
  induction n with
  | zero => intro url; simp [aggregateFrom]
  | succ n ih =>
      intro url
      cases hf : env.fetchPage url with
      | none => simp [aggregateFrom, hf]
      | some page =>
          cases hp : page.prevHref with
          | some h2 =>
              have e : aggregateFrom env url (n + 1)
                  = ⟨pagePosts env page ++ (aggregateFrom env (pttBase ++ h2) n).posts,
                     url :: (aggregateFrom env (pttBase ++ h2) n).visitedUrls,
                     (pagePosts env page).length
                       :: (aggregateFrom env (pttBase ++ h2) n).analyzedCounts⟩ := by
                simp [aggregateFrom, hf, hp]
              rw [e]
              refine ⟨?_, ?_⟩
              · simpa using Nat.succ_le_succ (ih (pttBase ++ h2)).1
              · intro c hc
                simp only [List.mem_cons] at hc
                cases hc with
                | inl hceq => rw [hceq]; exact pagePosts_length_le env page
                | inr hc => exact (ih (pttBase ++ h2)).2 c hc
          | none =>
              have e : aggregateFrom env url (n + 1)
                  = ⟨pagePosts env page, [url], [(pagePosts env page).length]⟩ := by
                simp [aggregateFrom, hf, hp]
              rw [e]
              refine ⟨by simp, ?_⟩
              intro c hc
              simp only [List.mem_cons, List.not_mem_nil, or_false] at hc
              rw [hc]
              exact pagePosts_length_le env page

/-! ## Claim C1 -/

/-- C1 counterexample: the claim says an empty LLM response makes the
lightweight classifier return the keyword fallback on the title text,
but on an empty response the code returns the fixed neutral object
instead — on the bullish title 噴 the two results differ. -/
theorem C1_counterexample :
    analyzeSentimentWithLLM true "噴" "" (.response "" none)
      ≠ analyzeSentimentKeyword "噴" := by decide

/-- C1 (amended): with a client present, the lightweight classifier
returns the keyword fallback on the title text exactly when the LLM
call throws, and the fixed neutral object 無法解析 AI 回應 when the
response is empty or unparseable; the deep classifier returns the
fixed 無法解析 AI 回應 object with empty opinions on an empty or
unparseable response, and the fixed Analysis Error object with empty
opinions when the call throws.  Both embedded functions are total, so
neither failure propagates to the caller. -/
theorem C1_fallback_behavior (title content msg text : String)
    (parsedS : Option SentimentResult) (parsedA : Option ArticleAnalysisResult) :
    analyzeSentimentWithLLM true title content (.thrown msg)
        = analyzeSentimentKeyword title
    ∧ analyzeSentimentWithLLM true title content (.response "" parsedS)
        = ⟨.Neutral, "無法解析 AI 回應"⟩
    ∧ analyzeSentimentWithLLM true title content (.response text none)
        = ⟨.Neutral, "無法解析 AI 回應"⟩
    ∧ analyzeArticleWithLLM true title content (.thrown msg)
        = ⟨.Neutral, "Analysis Error", []⟩
    ∧ analyzeArticleWithLLM true title content (.response "" parsedA)
        = ⟨.Neutral, "無法解析 AI 回應", []⟩
    ∧ analyzeArticleWithLLM true title content (.response text none)
        = ⟨.Neutral, "無法解析 AI 回應", []⟩ := by
  refine ⟨rfl, ?_, ?_, rfl, ?_, ?_⟩ <;>
    simp [analyzeSentimentWithLLM, analyzeArticleWithLLM]

/-! ## Claim C2 -/

/-- C2 (confirmed): the keyword classifier case-folds its input and
counts, for each fixed keyword set, the keywords contained in the
folded text; the strictly larger count wins and a tie is Neutral, each
outcome carrying its fixed keyword-derived rationale, and the three
rationales are pairwise distinct. -/
theorem C2_keyword_trichotomy (text : String) :
    (keywordCount BULLISH_KEYWORDS (jsToLowerCase text)
        > keywordCount BEARISH_KEYWORDS (jsToLowerCase text) →
      analyzeSentimentKeyword text = ⟨.Bullish, "關鍵字判定：多方詞彙較多"⟩)
    ∧ (keywordCount BEARISH_KEYWORDS (jsToLowerCase text)
        > keywordCount BULLISH_KEYWORDS (jsToLowerCase text) →
      analyzeSentimentKeyword text = ⟨.Bearish, "關鍵字判定：空方詞彙較多"⟩)
    ∧ (keywordCount BULLISH_KEYWORDS (jsToLowerCase text)
        = keywordCount BEARISH_KEYWORDS (jsToLowerCase text) →
      analyzeSentimentKeyword text = ⟨.Neutral, "關鍵字判定：中立或無明顯關鍵字"⟩)
    ∧ ("關鍵字判定：多方詞彙較多" ≠ "關鍵字判定：空方詞彙較多"
       ∧ "關鍵字判定：多方詞彙較多" ≠ "關鍵字判定：中立或無明顯關鍵字"
       ∧ "關鍵字判定：空方詞彙較多" ≠ "關鍵字判定：中立或無明顯關鍵字") := by
  refine ⟨?_, ?_, ?_, by decide, by decide, by decide⟩
  · intro h
    simp only [analyzeSentimentKeyword]
    rw [if_pos h]
  · intro h
    simp only [analyzeSentimentKeyword]
    rw [if_neg (by omega), if_pos h]
  · intro h
    simp only [analyzeSentimentKeyword]
    rw [if_neg (by omega), if_neg (by omega)]

/-- C2 witness: the theorem applied to one bullish-dominated, one
bearish-dominated and one keyword-free input. -/
theorem C2_keyword_trichotomy_witness :
    analyzeSentimentKeyword "噴" = ⟨.Bullish, "關鍵字判定：多方詞彙較多"⟩
    ∧ analyzeSentimentKeyword "崩" = ⟨.Bearish, "關鍵字判定：空方詞彙較多"⟩
    ∧ analyzeSentimentKeyword "hello"
        = ⟨.Neutral, "關鍵字判定：中立或無明顯關鍵字"⟩ :=
  ⟨(C2_keyword_trichotomy "噴").1 (by decide),
   (C2_keyword_trichotomy "崩").2.1 (by decide),
   (C2_keyword_trichotomy "hello").2.2.1 (by decide)⟩

/-! ## Claim C3 -/

/-- Example listing row used to instantiate universally quantified
theorems about the aggregation. -/
def exRow : ListingRow :=
  ⟨false, "[標的] 台積電", "/bbs/S.html", "alice", "10/11", "爆"⟩

/-- Candidate produced from exRow. -/
def exCand : Candidate :=
  ⟨"[標的] 台積電", "https://www.ptt.cc/bbs/S.html", "alice", "10/11", "爆",
   .Target⟩

/-- C3 counterexample: the claim says normalization yields a
non-negative integer for every display token, but parseInt accepts a
leading minus sign, so the token -3 normalizes to the negative value
-3. -/
theorem C3_counterexample :
    normalizePushCount "-3" = -3 ∧ ¬ 0 ≤ normalizePushCount "-3" := by decide

/-- C3 (amended): push-count normalization never raises and yields an
integer: 爆 maps to exactly 100, the empty string to 0, any other text
parseInt cannot read to 0, and the value is non-negative for every
token whose first non-whitespace character is not a minus sign; the
original display string is carried unchanged into the assembled
ForumPost's pushCount field. -/
theorem C3_push_count_normalization (s : String) (env : ScrapeEnv)
    (p : Candidate) (r : ListingRow) (c : Candidate) :
    normalizePushCount "爆" = 100
    ∧ normalizePushCount "" = 0
    ∧ (s ≠ "爆" → jsParseInt s = none → normalizePushCount s = 0)
    ∧ ((s.toList.dropWhile isJsSpace).head? ≠ some '-' →
        0 ≤ normalizePushCount s)
    ∧ (analyzeCandidate env p).pushCount = p.pushCountText
    ∧ (rowCandidate r = some c → c.pushCountText = r.pushCountText) := by
  refine ⟨by decide, by decide, ?_, ?_, rfl, ?_⟩
  · intro h1 h2
    simp [normalizePushCount, h1, h2]
  · intro h4
    by_cases hb : s = "爆"
    · simp [normalizePushCount, hb]
    · by_cases he : s ≠ ""
      · simp only [normalizePushCount, if_neg hb, if_pos he]
        exact jsParseInt_getD_nonneg s h4
      · simp [normalizePushCount, hb, he]
  · intro h6
    unfold rowCandidate at h6
    split at h6
    · exact absurd h6 (by simp)
    · split at h6
      · injection h6 with h7
        rw [← h7]
      · exact absurd h6 (by simp)

/-- C3 witness: the amended theorem applied to the non-numeric token
abc and to the row exRow whose overflow token 爆 is preserved in the
candidate. -/
theorem C3_push_count_normalization_witness :
    normalizePushCount "abc" = 0
    ∧ 0 ≤ normalizePushCount "abc"
    ∧ exCand.pushCountText = exRow.pushCountText :=
  ⟨(C3_push_count_normalization "abc" fixedEnv exCand exRow exCand).2.2.1
      (by decide) (by decide),
   (C3_push_count_normalization "abc" fixedEnv exCand exRow exCand).2.2.2.1
      (by decide),
   (C3_push_count_normalization "abc" fixedEnv exCand exRow exCand).2.2.2.2.2
      (by decide)⟩

/-! ## Claim C4 -/

/-- C4 (confirmed): a listing row whose title contains the marker
[標的] is categorized Target whatever its push count; a row without the
marker whose normalized push count exceeds 20 becomes an Other
candidate; a row matching neither rule yields no candidate, and
removing such a row from a page leaves the page's produced posts
unchanged. -/
theorem C4_category_rules (env : ScrapeEnv) (r : ListingRow) (v : Int)
    (rows1 rows2 : List ListingRow) (prev : Option String) :
    (strIncludes r.title "[標的]" = true → categorize r.title v = some .Target)
    ∧ (strIncludes r.title "[標的]" = false →
        normalizePushCount r.pushCountText > 20 → r.deleted = false →
        rowCandidate r = some ⟨r.title, pttBase ++ r.href, r.author, r.date,
          r.pushCountText, .Other⟩)
    ∧ (strIncludes r.title "[標的]" = false →
        ¬ normalizePushCount r.pushCountText > 20 →
        rowCandidate r = none
        ∧ pagePosts env ⟨rows1 ++ r :: rows2, prev⟩
            = pagePosts env ⟨rows1 ++ rows2, prev⟩) := by
  refine ⟨?_, ?_, ?_⟩
  · intro h
    simp [categorize, h]
  · intro h1 h2 h3
    have hcat : categorize r.title (normalizePushCount r.pushCountText)
        = some .Other := by
      simp [categorize, h1, h2]
    simp [rowCandidate, h3, hcat]
  · intro h1 h2
    have hcat : categorize r.title (normalizePushCount r.pushCountText)
        = none := by
      simp [categorize, h1, h2]
    have hrc : rowCandidate r = none := by
      unfold rowCandidate
      split
      · rfl
      · rw [hcat]
    refine ⟨hrc, ?_⟩
    simp [pagePosts, pageCandidates, List.filterMap_append,
      List.filterMap_cons, hrc]

/-- C4 witness: the category rules applied to a marker title, a
popular unmarked row, and an unpopular unmarked row whose removal
leaves the page output unchanged. -/
theorem C4_category_rules_witness :
    categorize "[標的] 2330" 0 = some .Target
    ∧ rowCandidate ⟨false, "熱門文章", "/a", "bob", "10/10", "99"⟩
        = some ⟨"熱門文章", "https://www.ptt.cc/a", "bob", "10/10", "99", .Other⟩
    ∧ rowCandidate ⟨false, "冷門文章", "/b", "eve", "10/10", "3"⟩ = none
    ∧ pagePosts fixedEnv ⟨[⟨false, "冷門文章", "/b", "eve", "10/10", "3"⟩], none⟩
        = pagePosts fixedEnv ⟨[], none⟩ := by
  refine ⟨?_, ?_, ?_, ?_⟩
  · exact (C4_category_rules fixedEnv ⟨false, "[標的] 2330", "", "", "", ""⟩
      0 [] [] none).1 (by decide)
  · exact (C4_category_rules fixedEnv ⟨false, "熱門文章", "/a", "bob", "10/10", "99"⟩
      0 [] [] none).2.1 (by decide) (by decide) (by decide)
  · exact ((C4_category_rules fixedEnv ⟨false, "冷門文章", "/b", "eve", "10/10", "3"⟩
      0 [] [] none).2.2 (by decide) (by decide)).1
  · exact ((C4_category_rules fixedEnv ⟨false, "冷門文章", "/b", "eve", "10/10", "3"⟩
      0 [] [] none).2.2 (by decide) (by decide)).2

/-! ## Claim C5 -/

/-- C5 counterexample: the claim says the resolver never returns an
empty list, but a successfully parsed feed with zero item entries
produces the empty list (no step failed, so the mock fallback is not
taken). -/
theorem C5_counterexample :
    fetchRecentEpisodes (.parsed []) (fun _ => none)
      "2026-10-11" "2026-10-08" = [] := rfl

/-- C5 (amended): the resolver returns at most 10 episodes; on failure
of the catalog lookup, the feed fetch, or the feed parse it returns the
fixed two-entry mock list, as it also does when item processing throws
on an unparsable publish date; only a successfully parsed feed with no
items yields an empty list. -/
theorem C5_resolver_bounds (outcome : FeedOutcome)
    (toISODate : String → Option String) (today threeDaysAgo : String) :
    (fetchRecentEpisodes outcome toISODate today threeDaysAgo).length ≤ 10
    ∧ (outcome = .lookupFailed ∨ outcome = .fetchFailed ∨ outcome = .parseFailed →
        fetchRecentEpisodes outcome toISODate today threeDaysAgo
          = mockEpisodes today threeDaysAgo)
    ∧ (∀ items, buildEpisodes toISODate today items.length 0 (items.take 10)
          = .error () →
        fetchRecentEpisodes (.parsed items) toISODate today threeDaysAgo
          = mockEpisodes today threeDaysAgo) := by
  refine ⟨?_, ?_, ?_⟩
  · cases outcome with
    | parsed items =>
        cases hb : buildEpisodes toISODate today items.length 0 (items.take 10) with
        | ok eps =>
            have hl := buildEpisodes_ok_length toISODate today items.length
              (items.take 10) 0 eps hb
            have h10 : eps.length ≤ 10 := by
              rw [hl, List.length_take]
              exact min_le_left _ _
            simpa [fetchRecentEpisodes, hb] using h10
        | error e => simp [fetchRecentEpisodes, hb, mockEpisodes]
    | lookupFailed => simp [fetchRecentEpisodes, mockEpisodes]
    | fetchFailed => simp [fetchRecentEpisodes, mockEpisodes]
    | parseFailed => simp [fetchRecentEpisodes, mockEpisodes]
  · intro h
    rcases h with h | h | h <;> subst h <;> rfl
  · intro items hb
    simp [fetchRecentEpisodes, hb]

/-- C5 witness: the amended theorem applied to a failed catalog lookup
and to a one-item feed whose publish date is unparsable. -/
theorem C5_resolver_bounds_witness :
    fetchRecentEpisodes .lookupFailed (fun _ => none) "2026-10-11" "2026-10-08"
      = mockEpisodes "2026-10-11" "2026-10-08"
    ∧ fetchRecentEpisodes (.parsed [⟨"no match", "not a date", ""⟩])
        (fun _ => none) "2026-10-11" "2026-10-08"
      = mockEpisodes "2026-10-11" "2026-10-08" :=
  ⟨(C5_resolver_bounds .lookupFailed (fun _ => none)
      "2026-10-11" "2026-10-08").2.1 (Or.inl rfl),
   (C5_resolver_bounds (.parsed [⟨"no match", "not a date", ""⟩]) (fun _ => none)
      "2026-10-11" "2026-10-08").2.2 [⟨"no match", "not a date", ""⟩] rfl⟩

/-! ## Claim C6 -/

/-- Example feed items exercising all three episode-number derivation
rules. -/
def exFeedItems : List RSSItem :=
  [⟨"EP10 special", "", ""⟩, ⟨"talk", "D1", "7"⟩, ⟨"chat", "", ""⟩]

/-- Example date oracle: only the publish date D1 is parsable. -/
def exDateOracle : String → Option String :=
  fun s => if s = "D1" then some "2024-01-02" else none

/-- C6 counterexample: the claim says an unparsable publish date
defaults to the current date, but an item with a present, unparsable
publish date makes the whole resolver fall back to the mock list, so
no episode with the current date is produced for it. -/
theorem C6_counterexample :
    fetchRecentEpisodes (.parsed [⟨"no episode marker", "not a date", ""⟩])
      (fun _ => none) "2026-10-11" "2026-10-08"
      ≠ [⟨"EP1", "EP1", "no episode marker", "2026-10-11"⟩] := by decide

/-- C6 (amended): on a run in which every processed item's date
resolves (so no exception is thrown), the resolver returns exactly one
episode per item of the first up-to-10 items, whose number is EP
followed by the digits of the first EP-digits match in the title, else
EP followed by the embedded episode field when non-empty, else EP
followed by the total item count minus the item index; its date is the
normalized publish date when the publish date is non-empty and the
current date when it is empty.  A present but unparsable publish date
instead aborts to the mock fallback (see the counterexample). -/
theorem C6_episode_derivation (items : List RSSItem)
    (toISODate : String → Option String) (today threeDaysAgo : String)
    (eps : List Episode)
    (h : buildEpisodes toISODate today items.length 0 (items.take 10) = .ok eps) :
    fetchRecentEpisodes (.parsed items) toISODate today threeDaysAgo = eps
    ∧ eps = (List.enumFrom 0 (items.take 10)).map (fun pr =>
        ⟨deriveEpisodeNumber items.length pr.1 pr.2,
         deriveEpisodeNumber items.length pr.1 pr.2, pr.2.title,
         (deriveDate toISODate today pr.2).getD today⟩) := by
  constructor
  · simp [fetchRecentEpisodes, h]
  · exact buildEpisodes_ok_spec toISODate today items.length (items.take 10) 0 eps h

/-- C6 witness: the amended theorem applied to a three-item feed that
takes the title-match rule, the embedded-field rule and the
reverse-index rule in turn, with one empty and one parsable date. -/
theorem C6_episode_derivation_witness :
    fetchRecentEpisodes (.parsed exFeedItems) exDateOracle
      "2026-10-11" "2026-10-08"
      = [⟨"EP10", "EP10", "EP10 special", "2026-10-11"⟩,
         ⟨"EP7", "EP7", "talk", "2024-01-02"⟩,
         ⟨"EP1", "EP1", "chat", "2026-10-11"⟩] :=
  (C6_episode_derivation exFeedItems exDateOracle "2026-10-11" "2026-10-08"
    [⟨"EP10", "EP10", "EP10 special", "2026-10-11"⟩,
     ⟨"EP7", "EP7", "talk", "2024-01-02"⟩,
     ⟨"EP1", "EP1", "chat", "2026-10-11"⟩] rfl).1

/-! ## Claim C7 -/

/-- C7 counterexample: the claim says every classification entry point
returns a value instead of throwing when the LLM credential is absent,
but analyzePodcast calls getClient outside its try block, so with no
key it propagates the thrown error to its caller. -/
theorem C7_counterexample :
    analyzePodcast false (.response "raw" none) [] = .error apiKeyErrorMsg := rfl

/-- C7 (amended): the two server-side classifiers are total and degrade
to their documented fallbacks when the credential is missing (keyword
classification of title-plus-content for the lightweight path, the
fixed No API Key object for the deep path); analyzePodcast, by
contrast, propagates an error both when the credential is missing and
when the LLM call throws, and only returns a value on a completed
call. -/
theorem C7_boundary (t c msg : String) (llmS : LLMOutcome SentimentResult)
    (llmA : LLMOutcome ArticleAnalysisResult)
    (src : List (String × String)) (llmP : LLMOutcome PodcastAnalysis) :
    analyzeSentimentWithLLM false t c llmS = analyzeSentimentKeyword (t ++ " " ++ c)
    ∧ analyzeArticleWithLLM false t c llmA = ⟨.Neutral, "No API Key", []⟩
    ∧ analyzePodcast false llmP src = .error apiKeyErrorMsg
    ∧ analyzePodcast true (.thrown msg) src = .error msg
    ∧ (∀ (text : String) (parsed : Option PodcastAnalysis),
        analyzePodcast true (.response text parsed) src
          = .ok ⟨if text ≠ "" then parsed else none, src⟩) :=
  ⟨rfl, rfl, rfl, rfl, fun _ _ => rfl⟩

/-! ## Claim C8 -/

/-- C8 (confirmed): a run of the aggregation attempts at most 3 listing
page fetches, and on every page at most 5 candidates are analyzed (the
per-page post list always has length at most 5). -/
theorem C8_aggregation_bounds (env : ScrapeEnv) :
    (pttSentimentRun env).visitedUrls.length ≤ 3
    ∧ (pttSentimentRun env).analyzedCounts.all (fun c => decide (c ≤ 5)) = true
    ∧ ∀ page, (pagePosts env page).length ≤ 5 := by
  refine ⟨(aggregateFrom_bounds env 3 indexUrl).1, ?_,
    fun page => pagePosts_length_le env page⟩
  rw [List.all_eq_true]
  intro x hx
  simpa using (aggregateFrom_bounds env 3 indexUrl).2 x hx

/-! ## Claim C9 -/

/-- C9 (confirmed): a retained candidate whose detail fetch returns the
empty-content sentinel is still assembled into a ForumPost with the
fixed sentinel result Neutral and 無法讀取內容 and the listing row's
title, author, date, link, push-count text and category; when the
candidate is among the first 5 of its page, that post is a member of
the page's output. -/
theorem C9_unreadable_detail (env : ScrapeEnv) (r : ListingRow) (c : Candidate)
    (page : ListingPage)
    (hrc : rowCandidate r = some c)
    (hd : env.fetchDetail c.link = "") :
    analyzeCandidate env c
      = ⟨r.title, r.author, r.date, pttBase ++ r.href, r.pushCountText,
         extractStockId r.title, .Neutral, "無法讀取內容", c.category⟩
    ∧ (c ∈ (pageCandidates page).take 5 →
        (⟨r.title, r.author, r.date, pttBase ++ r.href, r.pushCountText,
          extractStockId r.title, .Neutral, "無法讀取內容", c.category⟩ : ForumPost)
          ∈ pagePosts env page) := by
  unfold rowCandidate at hrc
  split at hrc
  · exact absurd hrc (by simp)
  · split at hrc
    · rename_i cat hcat
      injection hrc with h7
      subst h7
      have hA : analyzeCandidate env
          ⟨r.title, pttBase ++ r.href, r.author, r.date, r.pushCountText, cat⟩
          = ⟨r.title, r.author, r.date, pttBase ++ r.href, r.pushCountText,
             extractStockId r.title, .Neutral, "無法讀取內容", cat⟩ := by
        simp [analyzeCandidate, hd]
      refine ⟨hA, ?_⟩
      intro hm
      have hmem := List.mem_map_of_mem (analyzeCandidate env) hm
      rw [hA] at hmem
      simpa [pagePosts] using hmem
    · exact absurd hrc (by simp)

/-- C9 witness: the theorem applied to the row exRow in an environment
whose detail fetch always fails. -/
theorem C9_unreadable_detail_witness :
    analyzeCandidate fixedEnv exCand
      = ⟨"[標的] 台積電", "alice", "10/11", "https://www.ptt.cc/bbs/S.html",
         "爆", none, .Neutral, "無法讀取內容", .Target⟩
    ∧ (⟨"[標的] 台積電", "alice", "10/11", "https://www.ptt.cc/bbs/S.html",
        "爆", none, .Neutral, "無法讀取內容", .Target⟩ : ForumPost)
        ∈ pagePosts fixedEnv ⟨[exRow], none⟩ :=
  have T := C9_unreadable_detail fixedEnv exRow exCand ⟨[exRow], none⟩
    (by decide) rfl
  ⟨T.1, T.2 (by decide)⟩

/-! ## Claim C10 -/

/-- C10 (confirmed): when the very first listing fetch returns the
empty-content sentinel the handler still responds with the success
envelope and an empty post list; in general a failed fetch at any
pagination step stops the loop there, contributing no further posts or
visits, so the run returns the posts collected before it as a success
response. -/
theorem C10_empty_fetch_success (env : ScrapeEnv) (url : String) (n : Nat)
    (h1 : env.fetchPage indexUrl = none) (h2 : env.fetchPage url = none) :
    pttSentimentHandler env = .success []
    ∧ aggregateFrom env url (n + 1) = ⟨[], [url], []⟩ := by
  have hstep : aggregateFrom env url (n + 1) = ⟨[], [url], []⟩ := by
    simp [aggregateFrom, h2]
  refine ⟨?_, hstep⟩
  have h3 : aggregateFrom env indexUrl 3 = ⟨[], [indexUrl], []⟩ := by
    show aggregateFrom env indexUrl (2 + 1) = ⟨[], [indexUrl], []⟩
    simp [aggregateFrom, h1]
  simp [pttSentimentHandler, pttSentimentRun, h3]

/-- C10 witness: the theorem applied to an environment in which every
page fetch fails. -/
theorem C10_empty_fetch_success_witness :
    pttSentimentHandler fixedEnv = .success []
    ∧ aggregateFrom fixedEnv indexUrl 1 = ⟨[], [indexUrl], []⟩ :=
  C10_empty_fetch_success fixedEnv indexUrl 0 rfl rfl
